import Mathlib

/-!
Shallow embedding of the Regal GL_QUADS emulation layer
(src/regal/RegalQuads.cpp): the `Quads` state tracker, its state setters,
and `Quads::glDrawArrays`, which decomposes QUADS / QUAD_STRIP draws into
triangles, line outlines or points and emits calls to the next dispatch
layer.  Downstream GL calls are modelled as an explicit trace
(`List GLCall`); GLuint index arithmetic is modelled in `Nat` modulo 2^32.
-/

/-- GL enumerant values used by the emulation core. -/
def GL_POINTS : Nat := 0x0000

def GL_LINES : Nat := 0x0001

def GL_TRIANGLES : Nat := 0x0004

def GL_QUADS : Nat := 0x0007

def GL_QUAD_STRIP : Nat := 0x0008

def GL_FRONT : Nat := 0x0404

def GL_BACK : Nat := 0x0405

def GL_FRONT_AND_BACK : Nat := 0x0408

def GL_CW : Nat := 0x0900

def GL_CCW : Nat := 0x0901

def GL_CULL_FACE : Nat := 0x0B44

def GL_POINT : Nat := 0x1B00

def GL_LINE : Nat := 0x1B01

def GL_FILL : Nat := 0x1B02

def GL_FLAT : Nat := 0x1D00

def GL_SMOOTH : Nat := 0x1D01

def GL_UNSIGNED_INT : Nat := 0x1405

def GL_ELEMENT_ARRAY_BUFFER : Nat := 0x8893

def GL_STATIC_DRAW : Nat := 0x88E4

def GL_FIRST_VERTEX_CONVENTION : Nat := 0x8E4D

def GL_LAST_VERTEX_CONVENTION : Nat := 0x8E4E

/-- `EMU_QUADS_BUFFER_SIZE` from RegalQuads.cpp: chunk capacity in primitives. -/
def EMU_QUADS_BUFFER_SIZE : Nat := 1024

/-- 2^32, the modulus of GLuint arithmetic. -/
def M32 : Nat := 2 ^ 32

/-- Conversion of a GLint to GLuint: two's-complement reduction mod 2^32. -/
def u32 (x : Int) : Nat := (x % (2 ^ 32 : Int)).toNat

/-- The mutable per-context state of the `Quads` emulation layer
(the member fields of `class Quads`). -/
structure QuadsState where
  elementArrayBuffer : Nat
  quadIndexBuffer : Nat
  windingMode : Nat
  frontFaceMode : Nat
  backFaceMode : Nat
  shadeMode : Nat
  provokeMode : Nat
  cullFace : Nat
  gl_quads_follow_provoking_vertex_convention : Bool
  cullingFaces : Bool
  deriving DecidableEq, Repr

/-- A call emitted to the next dispatch layer.  `drawElements` carries the
index data the submission reads (for the triangle paths this is the content
just uploaded into the bound scratch buffer; for the line paths it is the
client-side array passed directly). -/
inductive GLCall where
  | bindBuffer (target : Nat) (buffer : Nat)
  | bufferData (target : Nat) (byteSize : Nat) (data : List Nat) (usage : Nat)
  | drawElements (mode : Nat) (count : Nat) (indexType : Nat) (indexData : List Nat)
  | drawArraysCall (mode : Nat) (first : Int) (count : Nat)
  | polygonMode (face : Nat) (style : Nat)
  deriving DecidableEq, Repr

/-- `Quads::Init`: seed defaults; the freshly generated scratch buffer name
and the host capability flag are parameters (they come from the context). -/
def Quads.Init (generatedBuffer : Nat) (capability : Bool) : QuadsState :=
  { elementArrayBuffer := 0
    quadIndexBuffer := generatedBuffer
    windingMode := GL_CCW
    frontFaceMode := GL_FILL
    backFaceMode := GL_FILL
    shadeMode := GL_SMOOTH
    provokeMode := GL_LAST_VERTEX_CONVENTION
    cullFace := GL_BACK
    gl_quads_follow_provoking_vertex_convention := capability
    cullingFaces := false }

/-- `Quads::Cleanup`: the body is `UNUSED_PARAMETER(ctx);` — it mutates
nothing and emits no downstream GL calls. -/
def Quads.Cleanup (s : QuadsState) : QuadsState × List GLCall := (s, [])

/-- `Quads::glBindBuffer`: shadow-track the element-array binding. -/
def Quads.glBindBuffer (s : QuadsState) (target buffer : Nat) : QuadsState :=
  if target = GL_ELEMENT_ARRAY_BUFFER then { s with elementArrayBuffer := buffer } else s

/-- `Quads::glFrontFace`: accept CW/CCW only. -/
def Quads.glFrontFace (s : QuadsState) (mode : Nat) : QuadsState :=
  if mode = GL_CW ∨ mode = GL_CCW then { s with windingMode := mode } else s

/-- `Quads::glPolygonMode`: the switch validates the face argument only;
the style `m` is stored unvalidated. -/
def Quads.glPolygonMode (s : QuadsState) (f m : Nat) : QuadsState :=
  if f = GL_FRONT then { s with frontFaceMode := m }
  else if f = GL_BACK then { s with backFaceMode := m }
  else if f = GL_FRONT_AND_BACK then { s with frontFaceMode := m, backFaceMode := m }
  else s

/-- `Quads::glShadeModel`: accept SMOOTH/FLAT only. -/
def Quads.glShadeModel (s : QuadsState) (mode : Nat) : QuadsState :=
  if mode = GL_SMOOTH ∨ mode = GL_FLAT then { s with shadeMode := mode } else s

/-- `Quads::glProvokingVertex`: accept the two convention tokens only. -/
def Quads.glProvokingVertex (s : QuadsState) (mode : Nat) : QuadsState :=
  if mode = GL_FIRST_VERTEX_CONVENTION ∨ mode = GL_LAST_VERTEX_CONVENTION then
    { s with provokeMode := mode }
  else s

/-- `Quads::glCullFace`: accept FRONT/BACK/FRONT_AND_BACK only. -/
def Quads.glCullFace (s : QuadsState) (face : Nat) : QuadsState :=
  if face = GL_FRONT ∨ face = GL_BACK ∨ face = GL_FRONT_AND_BACK then
    { s with cullFace := face }
  else s

/-- `Quads::glEnable`: only GL_CULL_FACE is tracked. -/
def Quads.glEnable (s : QuadsState) (cap : Nat) : QuadsState :=
  if cap = GL_CULL_FACE then { s with cullingFaces := true } else s

/-- `Quads::glDisable`: only GL_CULL_FACE is tracked. -/
def Quads.glDisable (s : QuadsState) (cap : Nat) : QuadsState :=
  if cap = GL_CULL_FACE then { s with cullingFaces := false } else s

/-- The drawQuads/drawLines/drawPoints selection of `Quads::glDrawArrays`
(lines 141–167): `none` models the `return true` taken when culling with a
cull face that is none of BACK/FRONT. -/
def resolveDraw (s : QuadsState) : Option (Bool × Bool × Bool) :=
  if s.cullingFaces = false then
    some (s.frontFaceMode = GL_FILL ∨ s.backFaceMode = GL_FILL,
          s.frontFaceMode = GL_LINE ∨ s.backFaceMode = GL_LINE,
          s.frontFaceMode = GL_POINT ∨ s.backFaceMode = GL_POINT)
  else if s.cullFace = GL_BACK then
    some (s.frontFaceMode = GL_FILL, s.frontFaceMode = GL_LINE, s.frontFaceMode = GL_POINT)
  else if s.cullFace = GL_FRONT then
    some (s.backFaceMode = GL_FILL, s.backFaceMode = GL_LINE, s.backFaceMode = GL_POINT)
  else none

/-- Quad-strip → triangles index generation, smooth shading
(the active split of lines 202–209): per step `ii` the six GLuints
`first + 2·ii + (1,3,0,2,0,3)`. -/
def stripSmoothIndices (first : Int) (n : Nat) : List Nat :=
  (List.range n).flatMap (fun ii =>
    [(u32 first + ii * 2 + 1) % M32, (u32 first + ii * 2 + 3) % M32,
     (u32 first + ii * 2 + 0) % M32, (u32 first + ii * 2 + 2) % M32,
     (u32 first + ii * 2 + 0) % M32, (u32 first + ii * 2 + 3) % M32])

/-- Quad-strip → triangles, flat shading, last-vertex convention or
convention rule disabled (lines 241–249): offsets `(0,1,3,2,0,3)`. -/
def stripFlatLastIndices (first : Int) (n : Nat) : List Nat :=
  (List.range n).flatMap (fun ii =>
    [(u32 first + ii * 2 + 0) % M32, (u32 first + ii * 2 + 1) % M32,
     (u32 first + ii * 2 + 3) % M32, (u32 first + ii * 2 + 2) % M32,
     (u32 first + ii * 2 + 0) % M32, (u32 first + ii * 2 + 3) % M32])

/-- Quad-strip → triangles, flat shading, first-vertex convention
(lines 253–261): offsets `(1,3,0,3,2,0)`. -/
def stripFlatFirstIndices (first : Int) (n : Nat) : List Nat :=
  (List.range n).flatMap (fun ii =>
    [(u32 first + ii * 2 + 1) % M32, (u32 first + ii * 2 + 3) % M32,
     (u32 first + ii * 2 + 0) % M32, (u32 first + ii * 2 + 3) % M32,
     (u32 first + ii * 2 + 2) % M32, (u32 first + ii * 2 + 0) % M32])

/-- Quads → triangles, smooth shading (lines 290–298): per quad `ii` the six
GLuints `first + 4·ii + (0,1,2,3,0,2)`. -/
def quadsSmoothIndices (first : Int) (n : Nat) : List Nat :=
  (List.range n).flatMap (fun ii =>
    [(u32 first + ii * 4 + 0) % M32, (u32 first + ii * 4 + 1) % M32,
     (u32 first + ii * 4 + 2) % M32, (u32 first + ii * 4 + 3) % M32,
     (u32 first + ii * 4 + 0) % M32, (u32 first + ii * 4 + 2) % M32])

/-- Quads → triangles, flat shading, last-vertex convention or convention
rule disabled (lines 304–312): offsets `(0,1,3,1,2,3)`. -/
def quadsFlatLastIndices (first : Int) (n : Nat) : List Nat :=
  (List.range n).flatMap (fun ii =>
    [(u32 first + ii * 4 + 0) % M32, (u32 first + ii * 4 + 1) % M32,
     (u32 first + ii * 4 + 3) % M32, (u32 first + ii * 4 + 1) % M32,
     (u32 first + ii * 4 + 2) % M32, (u32 first + ii * 4 + 3) % M32])

/-- Quads → triangles, flat shading, first-vertex convention
(lines 316–324): offsets `(1,2,0,2,3,0)`. -/
def quadsFlatFirstIndices (first : Int) (n : Nat) : List Nat :=
  (List.range n).flatMap (fun ii =>
    [(u32 first + ii * 4 + 1) % M32, (u32 first + ii * 4 + 2) % M32,
     (u32 first + ii * 4 + 0) % M32, (u32 first + ii * 4 + 2) % M32,
     (u32 first + ii * 4 + 3) % M32, (u32 first + ii * 4 + 0) % M32])

/-- Quad-strip → line outline, flat + first-vertex convention
(lines 369–379): per step offsets `(3,1,1,0,2,0)`, then a trailing pair
`(2n+1, 2n+0)`. -/
def stripLineFlatFirstIndices (first : Int) (n : Nat) : List Nat :=
  (List.range n).flatMap (fun ii =>
    [(u32 first + ii * 2 + 3) % M32, (u32 first + ii * 2 + 1) % M32,
     (u32 first + ii * 2 + 1) % M32, (u32 first + ii * 2 + 0) % M32,
     (u32 first + ii * 2 + 2) % M32, (u32 first + ii * 2 + 0) % M32])
  ++ [(u32 first + n * 2 + 1) % M32, (u32 first + n * 2 + 0) % M32]

/-- Quad-strip → line outline, any other shading/convention
(lines 383–393): seed `(first+0, first+1)`, then per step offsets
`(0,2,2,3,1,3)`. -/
def stripLineIndices (first : Int) (n : Nat) : List Nat :=
  (u32 first + 0) % M32 :: (u32 first + 1) % M32 ::
  (List.range n).flatMap (fun ii =>
    [(u32 first + ii * 2 + 0) % M32, (u32 first + ii * 2 + 2) % M32,
     (u32 first + ii * 2 + 2) % M32, (u32 first + ii * 2 + 3) % M32,
     (u32 first + ii * 2 + 1) % M32, (u32 first + ii * 2 + 3) % M32])

/-- Quads → line outline, flat + first-vertex convention (lines 418–428):
per quad offsets `(0,1,0,3,1,2,3,2)`. -/
def quadsLineFlatFirstIndices (first : Int) (n : Nat) : List Nat :=
  (List.range n).flatMap (fun ii =>
    [(u32 first + ii * 4 + 0) % M32, (u32 first + ii * 4 + 1) % M32,
     (u32 first + ii * 4 + 0) % M32, (u32 first + ii * 4 + 3) % M32,
     (u32 first + ii * 4 + 1) % M32, (u32 first + ii * 4 + 2) % M32,
     (u32 first + ii * 4 + 3) % M32, (u32 first + ii * 4 + 2) % M32])

/-- Quads → line outline, any other shading/convention (lines 432–442):
per quad offsets `(1,0,0,3,1,2,2,3)`. -/
def quadsLineIndices (first : Int) (n : Nat) : List Nat :=
  (List.range n).flatMap (fun ii =>
    [(u32 first + ii * 4 + 1) % M32, (u32 first + ii * 4 + 0) % M32,
     (u32 first + ii * 4 + 0) % M32, (u32 first + ii * 4 + 3) % M32,
     (u32 first + ii * 4 + 1) % M32, (u32 first + ii * 4 + 2) % M32,
     (u32 first + ii * 4 + 2) % M32, (u32 first + ii * 4 + 3) % M32])

/-- The quads → triangles chunk loop (lines 330–343): while at least one
quad remains, upload the first `n·6` scratch indices and draw them, subtract
a full chunk's worth of vertices (4096), and if quads remain recompute `n`
and shift the live prefix of the scratch array up by 4096 (GLuint
arithmetic).  `myCount` is the non-negative masked count; the C loop's
signed `myCount` test `>= 4` agrees with the saturating `Nat` subtraction
used here.  `fuel` starts at `myCount`, which bounds the iteration count. -/
def quadsTriLoop (idx : List Nat) (n myCount fuel : Nat) : List GLCall :=
  match fuel with
  | 0 => []
  | fuel + 1 =>
    if 4 ≤ myCount then
      GLCall.bufferData GL_ELEMENT_ARRAY_BUFFER (n * 6 * 4) (idx.take (n * 6)) GL_STATIC_DRAW ::
      GLCall.drawElements GL_TRIANGLES (n * 6) GL_UNSIGNED_INT (idx.take (n * 6)) ::
      (let myCount2 := myCount - EMU_QUADS_BUFFER_SIZE * 4
       if 4 ≤ myCount2 then
         let n2 := min (myCount2 / 4) EMU_QUADS_BUFFER_SIZE
         quadsTriLoop ((idx.take (n2 * 6)).map (fun x => (x + EMU_QUADS_BUFFER_SIZE * 4) % M32))
           n2 myCount2 fuel
       else [])
    else []

/-- The quad-strip → triangles chunk loop (lines 266–279): threshold 2,
chunk step 2048 vertices, `n` recomputed as `myCount/2 - 1`. -/
def stripTriLoop (idx : List Nat) (n myCount fuel : Nat) : List GLCall :=
  match fuel with
  | 0 => []
  | fuel + 1 =>
    if 2 ≤ myCount then
      GLCall.bufferData GL_ELEMENT_ARRAY_BUFFER (n * 6 * 4) (idx.take (n * 6)) GL_STATIC_DRAW ::
      GLCall.drawElements GL_TRIANGLES (n * 6) GL_UNSIGNED_INT (idx.take (n * 6)) ::
      (let myCount2 := myCount - EMU_QUADS_BUFFER_SIZE * 2
       if 2 ≤ myCount2 then
         let n2 := min (myCount2 / 2 - 1) EMU_QUADS_BUFFER_SIZE
         stripTriLoop ((idx.take (n2 * 6)).map (fun x => (x + EMU_QUADS_BUFFER_SIZE * 2) % M32))
           n2 myCount2 fuel
       else [])
    else []

/-- The quads → line-outline chunk loop (lines 445–457): indices are
submitted from client memory (no buffer calls), `n·8` per chunk. -/
def quadsLineLoop (idx : List Nat) (n myCount fuel : Nat) : List GLCall :=
  match fuel with
  | 0 => []
  | fuel + 1 =>
    if 4 ≤ myCount then
      GLCall.drawElements GL_LINES (n * 8) GL_UNSIGNED_INT (idx.take (n * 8)) ::
      (let myCount2 := myCount - EMU_QUADS_BUFFER_SIZE * 4
       if 4 ≤ myCount2 then
         let n2 := min (myCount2 / 4) EMU_QUADS_BUFFER_SIZE
         quadsLineLoop ((idx.take (n2 * 8)).map (fun x => (x + EMU_QUADS_BUFFER_SIZE * 4) % M32))
           n2 myCount2 fuel
       else [])
    else []

/-- The quad-strip → line-outline chunk loop (lines 396–408): `n·6 + 2`
indices per chunk, threshold 2, step 2048. -/
def stripLineLoop (idx : List Nat) (n myCount fuel : Nat) : List GLCall :=
  match fuel with
  | 0 => []
  | fuel + 1 =>
    if 2 ≤ myCount then
      GLCall.drawElements GL_LINES (n * 6 + 2) GL_UNSIGNED_INT (idx.take (n * 6 + 2)) ::
      (let myCount2 := myCount - EMU_QUADS_BUFFER_SIZE * 2
       if 2 ≤ myCount2 then
         let n2 := min (myCount2 / 2 - 1) EMU_QUADS_BUFFER_SIZE
         stripLineLoop ((idx.take (n2 * 6 + 2)).map (fun x => (x + EMU_QUADS_BUFFER_SIZE * 2) % M32))
           n2 myCount2 fuel
       else [])
    else []

/-- The `count &= ~0x3 / ~0x1` masking of lines 190/358/472 for a
non-negative GLsizei count. -/
def maskedCount (mode : Nat) (count : Int) : Nat :=
  if mode = GL_QUADS then count.toNat / 4 * 4 else count.toNat / 2 * 2

/-- The drawQuads branch of `Quads::glDrawArrays` (lines 185–352): force
FILL if needed, generate indices, run the chunk loop bracketed by scratch
bind / shadow rebind, restore per-face modes. -/
def quadsFillCalls (s : QuadsState) (mode : Nat) (first count : Int) : List GLCall :=
  let pre :=
    if s.frontFaceMode ≠ GL_FILL ∨ s.backFaceMode ≠ GL_FILL then
      [GLCall.polygonMode GL_FRONT_AND_BACK GL_FILL]
    else []
  let myCount := maskedCount mode count
  let body :=
    if mode = GL_QUAD_STRIP then
      let n := min (myCount / 2 - 1) EMU_QUADS_BUFFER_SIZE
      let idx :=
        if s.shadeMode ≠ GL_FLAT then stripSmoothIndices first n
        else if s.gl_quads_follow_provoking_vertex_convention = false ∨
                s.provokeMode = GL_LAST_VERTEX_CONVENTION then
          stripFlatLastIndices first n
        else stripFlatFirstIndices first n
      GLCall.bindBuffer GL_ELEMENT_ARRAY_BUFFER s.quadIndexBuffer ::
        stripTriLoop idx n myCount myCount
        ++ [GLCall.bindBuffer GL_ELEMENT_ARRAY_BUFFER s.elementArrayBuffer]
    else if mode = GL_QUADS then
      let n := min (myCount / 4) EMU_QUADS_BUFFER_SIZE
      let idx :=
        if s.shadeMode ≠ GL_FLAT then quadsSmoothIndices first n
        else if s.gl_quads_follow_provoking_vertex_convention = false ∨
                s.provokeMode = GL_LAST_VERTEX_CONVENTION then
          quadsFlatLastIndices first n
        else quadsFlatFirstIndices first n
      GLCall.bindBuffer GL_ELEMENT_ARRAY_BUFFER s.quadIndexBuffer ::
        quadsTriLoop idx n myCount myCount
        ++ [GLCall.bindBuffer GL_ELEMENT_ARRAY_BUFFER s.elementArrayBuffer]
    else []
  let post :=
    (if s.frontFaceMode ≠ GL_FILL then [GLCall.polygonMode GL_FRONT s.frontFaceMode] else [])
    ++ (if s.backFaceMode ≠ GL_FILL then [GLCall.polygonMode GL_BACK s.backFaceMode] else [])
  pre ++ body ++ post

/-- The drawLines branch of `Quads::glDrawArrays` (lines 353–464). -/
def linesCalls (s : QuadsState) (mode : Nat) (first count : Int) : List GLCall :=
  let pre :=
    if s.frontFaceMode ≠ GL_LINE ∨ s.backFaceMode ≠ GL_LINE then
      [GLCall.polygonMode GL_FRONT_AND_BACK GL_LINE]
    else []
  let myCount := maskedCount mode count
  let flatFirst :=
    s.shadeMode = GL_FLAT ∧ s.gl_quads_follow_provoking_vertex_convention = true ∧
      s.provokeMode = GL_FIRST_VERTEX_CONVENTION
  let body :=
    if mode = GL_QUAD_STRIP then
      let n := min (myCount / 2 - 1) EMU_QUADS_BUFFER_SIZE
      let idx :=
        if flatFirst then stripLineFlatFirstIndices first n else stripLineIndices first n
      stripLineLoop idx n myCount myCount
    else if mode = GL_QUADS then
      let n := min (myCount / 4) EMU_QUADS_BUFFER_SIZE
      let idx :=
        if flatFirst then quadsLineFlatFirstIndices first n else quadsLineIndices first n
      quadsLineLoop idx n myCount myCount
    else []
  let post :=
    (if s.frontFaceMode ≠ GL_LINE then [GLCall.polygonMode GL_FRONT s.frontFaceMode] else [])
    ++ (if s.backFaceMode ≠ GL_LINE then [GLCall.polygonMode GL_BACK s.backFaceMode] else [])
  pre ++ body ++ post

/-- The drawPoints branch of `Quads::glDrawArrays` (lines 465–480):
pass the masked count through as a direct point draw. -/
def pointsCalls (s : QuadsState) (mode : Nat) (first count : Int) : List GLCall :=
  let pre :=
    if s.frontFaceMode ≠ GL_POINT ∨ s.backFaceMode ≠ GL_POINT then
      [GLCall.polygonMode GL_FRONT_AND_BACK GL_POINT]
    else []
  let post :=
    (if s.frontFaceMode ≠ GL_POINT then [GLCall.polygonMode GL_FRONT s.frontFaceMode] else [])
    ++ (if s.backFaceMode ≠ GL_POINT then [GLCall.polygonMode GL_BACK s.backFaceMode] else [])
  pre ++ [GLCall.drawArraysCall GL_POINTS first (maskedCount mode count)] ++ post

/-- `Quads::glDrawArrays` (lines 114–483): returns the (unchanged) state,
the handled flag, and the trace of calls emitted to the next layer. -/
def Quads.glDrawArrays (s : QuadsState) (mode : Nat) (first count : Int) :
    QuadsState × Bool × List GLCall :=
  if mode ≠ GL_QUADS ∧ mode ≠ GL_QUAD_STRIP then (s, false, [])
  else if count < 0 then (s, false, [])
  else if count < 4 then (s, true, [])
  else if s.cullingFaces = true ∧ s.cullFace = GL_FRONT_AND_BACK then (s, true, [])
  else
    match resolveDraw s with
    | none => (s, true, [])
    | some (drawQuads, drawLines, drawPoints) =>
      if drawQuads then (s, true, quadsFillCalls s mode first count)
      else if drawLines then (s, true, linesCalls s mode first count)
      else if drawPoints then (s, true, pointsCalls s mode first count)
      else (s, true, [])

/-- The primitive submissions in a trace: a `(primitive, indexData)` pair
for every `drawElements`, and `(primitive, [])` for a direct `drawArrays`
pass-through (which carries no index data). -/
def submissions (calls : List GLCall) : List (Nat × List Nat) :=
  calls.filterMap (fun c =>
    match c with
    | GLCall.drawElements m _ _ idx => some (m, idx)
    | GLCall.drawArraysCall m _ _ => some (m, [])
    | _ => none)

/-- The element-array-buffer binding visible after a trace, given the
binding before it. -/
def bindAfter (calls : List GLCall) (cur : Nat) : Nat :=
  calls.foldl (fun b c =>
    match c with
    | GLCall.bindBuffer t h => if t = GL_ELEMENT_ARRAY_BUFFER then h else b
    | _ => b) cur

/-- The active face-style set as §4.2 of the spec describes it: both faces
when not culling, the front face when culling BACK, the back face when
culling FRONT. -/
def specActiveStyles (s : QuadsState) : List Nat :=
  if s.cullingFaces = false then [s.frontFaceMode, s.backFaceMode]
  else if s.cullFace = GL_BACK then [s.frontFaceMode]
  else [s.backFaceMode]

/-- Default state right after `Init` (scratch buffer name 1, convention
capability off): FILL/FILL, SMOOTH, LAST_VERTEX, cull BACK, culling off. -/
def sDefault : QuadsState := Quads.Init 1 false

/-- Default state switched to flat shading. -/
def sFlatLast : QuadsState := Quads.glShadeModel sDefault GL_FLAT

/-- Default state with both faces set to LINE. -/
def sLineBoth : QuadsState := Quads.glPolygonMode sDefault GL_FRONT_AND_BACK GL_LINE

/-- Default state with the front face set to LINE (back face stays FILL). -/
def sMixedLineFill : QuadsState := Quads.glPolygonMode sDefault GL_FRONT GL_LINE

theorem submissions_nil : submissions [] = [] := rfl

theorem submissions_cons_bindBuffer (t h : Nat) (l : List GLCall) :
    submissions (GLCall.bindBuffer t h :: l) = submissions l := rfl

theorem submissions_cons_bufferData (t sz : Nat) (d : List Nat) (u : Nat) (l : List GLCall) :
    submissions (GLCall.bufferData t sz d u :: l) = submissions l := rfl

theorem submissions_cons_polygonMode (f m : Nat) (l : List GLCall) :
    submissions (GLCall.polygonMode f m :: l) = submissions l := rfl

theorem submissions_cons_drawElements (m c t : Nat) (idx : List Nat) (l : List GLCall) :
    submissions (GLCall.drawElements m c t idx :: l) = (m, idx) :: submissions l := rfl

theorem submissions_cons_drawArraysCall (m : Nat) (f : Int) (c : Nat) (l : List GLCall) :
    submissions (GLCall.drawArraysCall m f c :: l) = (m, []) :: submissions l := rfl

theorem submissions_append (l1 l2 : List GLCall) :
    submissions (l1 ++ l2) = submissions l1 ++ submissions l2 :=
  List.filterMap_append l1 l2 _

theorem length_flatMap_range {α : Type} (g : Nat → List α) (k n : Nat)
    (h : ∀ i, (g i).length = k) : ((List.range n).flatMap g).length = n * k := by
  induction n with
  | zero => simp
  | succ n ih =>
    rw [List.range_succ, List.flatMap_append, List.length_append, ih]
    simp [h, Nat.succ_mul]

theorem stripSmoothIndices_length (first : Int) (n : Nat) :
    (stripSmoothIndices first n).length = n * 6 :=
  length_flatMap_range _ 6 n (fun _ => rfl)

theorem stripFlatLastIndices_length (first : Int) (n : Nat) :
    (stripFlatLastIndices first n).length = n * 6 :=
  length_flatMap_range _ 6 n (fun _ => rfl)

theorem stripFlatFirstIndices_length (first : Int) (n : Nat) :
    (stripFlatFirstIndices first n).length = n * 6 :=
  length_flatMap_range _ 6 n (fun _ => rfl)

theorem quadsSmoothIndices_length (first : Int) (n : Nat) :
    (quadsSmoothIndices first n).length = n * 6 :=
  length_flatMap_range _ 6 n (fun _ => rfl)

theorem quadsFlatLastIndices_length (first : Int) (n : Nat) :
    (quadsFlatLastIndices first n).length = n * 6 :=
  length_flatMap_range _ 6 n (fun _ => rfl)

theorem quadsFlatFirstIndices_length (first : Int) (n : Nat) :
    (quadsFlatFirstIndices first n).length = n * 6 :=
  length_flatMap_range _ 6 n (fun _ => rfl)

theorem stripLineIndices_length (first : Int) (n : Nat) :
    (stripLineIndices first n).length = n * 6 + 2 := by
  rw [stripLineIndices, List.length_cons, List.length_cons,
    length_flatMap_range (fun ii =>
      [(u32 first + ii * 2 + 0) % M32, (u32 first + ii * 2 + 2) % M32,
       (u32 first + ii * 2 + 2) % M32, (u32 first + ii * 2 + 3) % M32,
       (u32 first + ii * 2 + 1) % M32, (u32 first + ii * 2 + 3) % M32]) 6 n (fun _ => rfl)]

theorem stripLineFlatFirstIndices_length (first : Int) (n : Nat) :
    (stripLineFlatFirstIndices first n).length = n * 6 + 2 := by
  rw [stripLineFlatFirstIndices, List.length_append,
    length_flatMap_range (fun ii =>
      [(u32 first + ii * 2 + 3) % M32, (u32 first + ii * 2 + 1) % M32,
       (u32 first + ii * 2 + 1) % M32, (u32 first + ii * 2 + 0) % M32,
       (u32 first + ii * 2 + 2) % M32, (u32 first + ii * 2 + 0) % M32]) 6 n (fun _ => rfl)]
  rfl

theorem quadsLineIndices_length (first : Int) (n : Nat) :
    (quadsLineIndices first n).length = n * 8 :=
  length_flatMap_range _ 8 n (fun _ => rfl)

theorem quadsLineFlatFirstIndices_length (first : Int) (n : Nat) :
    (quadsLineFlatFirstIndices first n).length = n * 8 :=
  length_flatMap_range _ 8 n (fun _ => rfl)

theorem quadsTriLoop_single (idx : List Nat) (n myCount fuel : Nat)
    (hl : idx.length = n * 6) (h1 : 4 ≤ myCount) (h2 : myCount ≤ 4099) (hf : 1 ≤ fuel) :
    quadsTriLoop idx n myCount fuel =
      [GLCall.bufferData GL_ELEMENT_ARRAY_BUFFER (n * 6 * 4) idx GL_STATIC_DRAW,
       GLCall.drawElements GL_TRIANGLES (n * 6) GL_UNSIGNED_INT idx] := by
  match fuel, hf with
  | fuel + 1, _ =>
    have htake : idx.take (n * 6) = idx := by
      rw [← hl]; exact List.take_length idx
    have hstop : ¬ 4 ≤ myCount - EMU_QUADS_BUFFER_SIZE * 4 := by
      simp only [EMU_QUADS_BUFFER_SIZE]; omega
    simp [quadsTriLoop, h1, hstop, htake]

theorem stripTriLoop_single (idx : List Nat) (n myCount fuel : Nat)
    (hl : idx.length = n * 6) (h1 : 2 ≤ myCount) (h2 : myCount ≤ 2049) (hf : 1 ≤ fuel) :
    stripTriLoop idx n myCount fuel =
      [GLCall.bufferData GL_ELEMENT_ARRAY_BUFFER (n * 6 * 4) idx GL_STATIC_DRAW,
       GLCall.drawElements GL_TRIANGLES (n * 6) GL_UNSIGNED_INT idx] := by
  match fuel, hf with
  | fuel + 1, _ =>
    have htake : idx.take (n * 6) = idx := by
      rw [← hl]; exact List.take_length idx
    have hstop : ¬ 2 ≤ myCount - EMU_QUADS_BUFFER_SIZE * 2 := by
      simp only [EMU_QUADS_BUFFER_SIZE]; omega
    simp [stripTriLoop, h1, hstop, htake]

theorem quadsLineLoop_single (idx : List Nat) (n myCount fuel : Nat)
    (hl : idx.length = n * 8) (h1 : 4 ≤ myCount) (h2 : myCount ≤ 4099) (hf : 1 ≤ fuel) :
    quadsLineLoop idx n myCount fuel =
      [GLCall.drawElements GL_LINES (n * 8) GL_UNSIGNED_INT idx] := by
  match fuel, hf with
  | fuel + 1, _ =>
    have htake : idx.take (n * 8) = idx := by
      rw [← hl]; exact List.take_length idx
    have hstop : ¬ 4 ≤ myCount - EMU_QUADS_BUFFER_SIZE * 4 := by
      simp only [EMU_QUADS_BUFFER_SIZE]; omega
    simp [quadsLineLoop, h1, hstop, htake]

theorem stripLineLoop_single (idx : List Nat) (n myCount fuel : Nat)
    (hl : idx.length = n * 6 + 2) (h1 : 2 ≤ myCount) (h2 : myCount ≤ 2049) (hf : 1 ≤ fuel) :
    stripLineLoop idx n myCount fuel =
      [GLCall.drawElements GL_LINES (n * 6 + 2) GL_UNSIGNED_INT idx] := by
  match fuel, hf with
  | fuel + 1, _ =>
    have htake : idx.take (n * 6 + 2) = idx := by
      rw [← hl]; exact List.take_length idx
    have hstop : ¬ 2 ≤ myCount - EMU_QUADS_BUFFER_SIZE * 2 := by
      simp only [EMU_QUADS_BUFFER_SIZE]; omega
    simp [stripLineLoop, h1, hstop, htake]

theorem bindAfter_nil (b : Nat) : bindAfter [] b = b := rfl

theorem bindAfter_append (l1 l2 : List GLCall) (b : Nat) :
    bindAfter (l1 ++ l2) b = bindAfter l2 (bindAfter l1 b) :=
  List.foldl_append _ _ l1 l2

theorem bindAfter_cons_bufferData (t sz : Nat) (d : List Nat) (u : Nat) (l : List GLCall)
    (b : Nat) : bindAfter (GLCall.bufferData t sz d u :: l) b = bindAfter l b := rfl

theorem bindAfter_cons_drawElements (m c t : Nat) (idx : List Nat) (l : List GLCall)
    (b : Nat) : bindAfter (GLCall.drawElements m c t idx :: l) b = bindAfter l b := rfl

theorem bindAfter_cons_drawArraysCall (m : Nat) (f : Int) (c : Nat) (l : List GLCall)
    (b : Nat) : bindAfter (GLCall.drawArraysCall m f c :: l) b = bindAfter l b := rfl

theorem bindAfter_cons_polygonMode (f m : Nat) (l : List GLCall) (b : Nat) :
    bindAfter (GLCall.polygonMode f m :: l) b = bindAfter l b := rfl

theorem bindAfter_cons_bindBuffer (t h : Nat) (l : List GLCall) (b : Nat) :
    bindAfter (GLCall.bindBuffer t h :: l) b =
      bindAfter l (if t = GL_ELEMENT_ARRAY_BUFFER then h else b) := rfl

theorem quadsTriLoop_bindAfter (fuel : Nat) :
    ∀ (idx : List Nat) (n myCount b : Nat),
      bindAfter (quadsTriLoop idx n myCount fuel) b = b := by
  induction fuel with
  | zero => intro idx n myCount b; rfl
  | succ fuel ih =>
    intro idx n myCount b
    simp only [quadsTriLoop]
    split
    · rw [bindAfter_cons_bufferData, bindAfter_cons_drawElements]
      split
      · exact ih _ _ _ b
      · rfl
    · rfl

theorem stripTriLoop_bindAfter (fuel : Nat) :
    ∀ (idx : List Nat) (n myCount b : Nat),
      bindAfter (stripTriLoop idx n myCount fuel) b = b := by
  induction fuel with
  | zero => intro idx n myCount b; rfl
  | succ fuel ih =>
    intro idx n myCount b
    simp only [stripTriLoop]
    split
    · rw [bindAfter_cons_bufferData, bindAfter_cons_drawElements]
      split
      · exact ih _ _ _ b
      · rfl
    · rfl

theorem quadsLineLoop_bindAfter (fuel : Nat) :
    ∀ (idx : List Nat) (n myCount b : Nat),
      bindAfter (quadsLineLoop idx n myCount fuel) b = b := by
  induction fuel with
  | zero => intro idx n myCount b; rfl
  | succ fuel ih =>
    intro idx n myCount b
    simp only [quadsLineLoop]
    split
    · rw [bindAfter_cons_drawElements]
      split
      · exact ih _ _ _ b
      · rfl
    · rfl

theorem stripLineLoop_bindAfter (fuel : Nat) :
    ∀ (idx : List Nat) (n myCount b : Nat),
      bindAfter (stripLineLoop idx n myCount fuel) b = b := by
  induction fuel with
  | zero => intro idx n myCount b; rfl
  | succ fuel ih =>
    intro idx n myCount b
    simp only [stripLineLoop]
    split
    · rw [bindAfter_cons_drawElements]
      split
      · exact ih _ _ _ b
      · rfl
    · rfl

theorem bindAfter_polygonMode_opt (cond : Prop) [Decidable cond] (f m : Nat) (b : Nat) :
    bindAfter (if cond then [GLCall.polygonMode f m] else []) b = b := by
  split <;> rfl

theorem quadsFillCalls_bindAfter (s : QuadsState) (mode : Nat) (first count : Int) :
    bindAfter (quadsFillCalls s mode first count) s.elementArrayBuffer =
      s.elementArrayBuffer := by
  simp only [quadsFillCalls, bindAfter_append, bindAfter_polygonMode_opt]
  split
  · simp only [bindAfter_append, bindAfter_cons_bindBuffer, eq_self_iff_true, if_true,
      stripTriLoop_bindAfter, bindAfter_nil]
  · split
    · simp only [bindAfter_append, bindAfter_cons_bindBuffer, eq_self_iff_true, if_true,
        quadsTriLoop_bindAfter, bindAfter_nil]
    · rfl

theorem linesCalls_bindAfter (s : QuadsState) (mode : Nat) (first count : Int) (b : Nat) :
    bindAfter (linesCalls s mode first count) b = b := by
  simp only [linesCalls, bindAfter_append, bindAfter_polygonMode_opt]
  split
  · rw [stripLineLoop_bindAfter]
  · split
    · rw [quadsLineLoop_bindAfter]
    · rfl

theorem pointsCalls_bindAfter (s : QuadsState) (mode : Nat) (first count : Int) (b : Nat) :
    bindAfter (pointsCalls s mode first count) b = b := by
  simp only [pointsCalls, bindAfter_append, bindAfter_polygonMode_opt,
    bindAfter_cons_drawArraysCall, bindAfter_nil]

theorem submissions_polygonMode_opt (cond : Prop) [Decidable cond] (f m : Nat) :
    submissions (if cond then [GLCall.polygonMode f m] else []) = [] := by
  split <;> rfl

theorem quadsTriLoop_submissions (fuel : Nat) :
    ∀ (idx : List Nat) (n myCount : Nat) (x : Nat × List Nat),
      x ∈ submissions (quadsTriLoop idx n myCount fuel) → x.1 = GL_TRIANGLES := by
  induction fuel with
  | zero => intro idx n myCount x hx; simp [quadsTriLoop, submissions_nil] at hx
  | succ fuel ih =>
    intro idx n myCount x hx
    simp only [quadsTriLoop] at hx
    by_cases h1 : 4 ≤ myCount
    · rw [if_pos h1, submissions_cons_bufferData, submissions_cons_drawElements] at hx
      rcases List.mem_cons.1 hx with h | h
      · rw [h]
      · revert h
        split
        · intro h; exact ih _ _ _ _ h
        · intro h; simp [submissions_nil] at h
    · rw [if_neg h1] at hx; simp [submissions_nil] at hx

theorem stripTriLoop_submissions (fuel : Nat) :
    ∀ (idx : List Nat) (n myCount : Nat) (x : Nat × List Nat),
      x ∈ submissions (stripTriLoop idx n myCount fuel) → x.1 = GL_TRIANGLES := by
  induction fuel with
  | zero => intro idx n myCount x hx; simp [stripTriLoop, submissions_nil] at hx
  | succ fuel ih =>
    intro idx n myCount x hx
    simp only [stripTriLoop] at hx
    by_cases h1 : 2 ≤ myCount
    · rw [if_pos h1, submissions_cons_bufferData, submissions_cons_drawElements] at hx
      rcases List.mem_cons.1 hx with h | h
      · rw [h]
      · revert h
        split
        · intro h; exact ih _ _ _ _ h
        · intro h; simp [submissions_nil] at h
    · rw [if_neg h1] at hx; simp [submissions_nil] at hx

theorem quadsLineLoop_submissions (fuel : Nat) :
    ∀ (idx : List Nat) (n myCount : Nat) (x : Nat × List Nat),
      x ∈ submissions (quadsLineLoop idx n myCount fuel) → x.1 = GL_LINES := by
  induction fuel with
  | zero => intro idx n myCount x hx; simp [quadsLineLoop, submissions_nil] at hx
  | succ fuel ih =>
    intro idx n myCount x hx
    simp only [quadsLineLoop] at hx
    by_cases h1 : 4 ≤ myCount
    · rw [if_pos h1, submissions_cons_drawElements] at hx
      rcases List.mem_cons.1 hx with h | h
      · rw [h]
      · revert h
        split
        · intro h; exact ih _ _ _ _ h
        · intro h; simp [submissions_nil] at h
    · rw [if_neg h1] at hx; simp [submissions_nil] at hx

theorem stripLineLoop_submissions (fuel : Nat) :
    ∀ (idx : List Nat) (n myCount : Nat) (x : Nat × List Nat),
      x ∈ submissions (stripLineLoop idx n myCount fuel) → x.1 = GL_LINES := by
  induction fuel with
  | zero => intro idx n myCount x hx; simp [stripLineLoop, submissions_nil] at hx
  | succ fuel ih =>
    intro idx n myCount x hx
    simp only [stripLineLoop] at hx
    by_cases h1 : 2 ≤ myCount
    · rw [if_pos h1, submissions_cons_drawElements] at hx
      rcases List.mem_cons.1 hx with h | h
      · rw [h]
      · revert h
        split
        · intro h; exact ih _ _ _ _ h
        · intro h; simp [submissions_nil] at h
    · rw [if_neg h1] at hx; simp [submissions_nil] at hx

theorem quadsTriLoop_submissions_ne_nil (idx : List Nat) (n myCount fuel : Nat)
    (h1 : 4 ≤ myCount) (hf : 1 ≤ fuel) :
    submissions (quadsTriLoop idx n myCount fuel) ≠ [] := by
  match fuel, hf with
  | fuel + 1, _ =>
    simp only [quadsTriLoop, if_pos h1, submissions_cons_bufferData,
      submissions_cons_drawElements]
    exact List.cons_ne_nil _ _

theorem stripTriLoop_submissions_ne_nil (idx : List Nat) (n myCount fuel : Nat)
    (h1 : 2 ≤ myCount) (hf : 1 ≤ fuel) :
    submissions (stripTriLoop idx n myCount fuel) ≠ [] := by
  match fuel, hf with
  | fuel + 1, _ =>
    simp only [stripTriLoop, if_pos h1, submissions_cons_bufferData,
      submissions_cons_drawElements]
    exact List.cons_ne_nil _ _

theorem quadsLineLoop_submissions_ne_nil (idx : List Nat) (n myCount fuel : Nat)
    (h1 : 4 ≤ myCount) (hf : 1 ≤ fuel) :
    submissions (quadsLineLoop idx n myCount fuel) ≠ [] := by
  match fuel, hf with
  | fuel + 1, _ =>
    simp only [quadsLineLoop, if_pos h1, submissions_cons_drawElements]
    exact List.cons_ne_nil _ _

theorem stripLineLoop_submissions_ne_nil (idx : List Nat) (n myCount fuel : Nat)
    (h1 : 2 ≤ myCount) (hf : 1 ≤ fuel) :
    submissions (stripLineLoop idx n myCount fuel) ≠ [] := by
  match fuel, hf with
  | fuel + 1, _ =>
    simp only [stripLineLoop, if_pos h1, submissions_cons_drawElements]
    exact List.cons_ne_nil _ _

theorem maskedCount_quads (count : Int) : maskedCount GL_QUADS count = count.toNat / 4 * 4 := by
  simp [maskedCount]

theorem maskedCount_strip (count : Int) :
    maskedCount GL_QUAD_STRIP count = count.toNat / 2 * 2 := by
  rw [maskedCount, if_neg]
  decide

theorem quadsFillCalls_submissions (s : QuadsState) (mode : Nat) (first count : Int)
    (hmode : mode = GL_QUADS ∨ mode = GL_QUAD_STRIP) (hc : (4 : Int) ≤ count) :
    submissions (quadsFillCalls s mode first count) ≠ [] ∧
      ∀ x ∈ submissions (quadsFillCalls s mode first count), x.1 = GL_TRIANGLES := by
  have hc4 : 4 ≤ count.toNat := by omega
  simp only [quadsFillCalls, submissions_append, submissions_polygonMode_opt,
    List.append_nil, List.nil_append]
  rcases hmode with h | h
  · rw [if_neg (by rw [h]; decide), if_pos h, h]
    simp only [submissions_cons_bindBuffer, submissions_append, submissions_cons_bindBuffer,
      submissions_nil, List.append_nil]
    constructor
    · exact quadsTriLoop_submissions_ne_nil _ _ _ _
        (by rw [maskedCount_quads]; omega) (by rw [maskedCount_quads]; omega)
    · intro x hx; exact quadsTriLoop_submissions _ _ _ _ _ hx
  · rw [if_pos h, h]
    simp only [submissions_cons_bindBuffer, submissions_append, submissions_cons_bindBuffer,
      submissions_nil, List.append_nil]
    constructor
    · exact stripTriLoop_submissions_ne_nil _ _ _ _
        (by rw [maskedCount_strip]; omega) (by rw [maskedCount_strip]; omega)
    · intro x hx; exact stripTriLoop_submissions _ _ _ _ _ hx

theorem linesCalls_submissions (s : QuadsState) (mode : Nat) (first count : Int)
    (hmode : mode = GL_QUADS ∨ mode = GL_QUAD_STRIP) (hc : (4 : Int) ≤ count) :
    submissions (linesCalls s mode first count) ≠ [] ∧
      ∀ x ∈ submissions (linesCalls s mode first count), x.1 = GL_LINES := by
  have hc4 : 4 ≤ count.toNat := by omega
  simp only [linesCalls, submissions_append, submissions_polygonMode_opt,
    List.append_nil, List.nil_append]
  rcases hmode with h | h
  · rw [if_neg (by rw [h]; decide), if_pos h, h]
    constructor
    · exact quadsLineLoop_submissions_ne_nil _ _ _ _
        (by rw [maskedCount_quads]; omega) (by rw [maskedCount_quads]; omega)
    · intro x hx; exact quadsLineLoop_submissions _ _ _ _ _ hx
  · rw [if_pos h, h]
    constructor
    · exact stripLineLoop_submissions_ne_nil _ _ _ _
        (by rw [maskedCount_strip]; omega) (by rw [maskedCount_strip]; omega)
    · intro x hx; exact stripLineLoop_submissions _ _ _ _ _ hx

theorem pointsCalls_submissions (s : QuadsState) (mode : Nat) (first count : Int) :
    submissions (pointsCalls s mode first count) = [(GL_POINTS, [])] := by
  simp only [pointsCalls, submissions_append, submissions_polygonMode_opt,
    submissions_cons_drawArraysCall, submissions_nil, List.append_nil, List.nil_append]

theorem glDrawArrays_resolved (s : QuadsState) (mode : Nat) (first count : Int)
    (q l p : Bool) (hmode : mode = GL_QUADS ∨ mode = GL_QUAD_STRIP)
    (hc : (4 : Int) ≤ count)
    (hnotall : ¬(s.cullingFaces = true ∧ s.cullFace = GL_FRONT_AND_BACK))
    (hres : resolveDraw s = some (q, l, p)) :
    Quads.glDrawArrays s mode first count =
      (s, true,
        if q then quadsFillCalls s mode first count
        else if l then linesCalls s mode first count
        else if p then pointsCalls s mode first count
        else []) := by
  have h0 : ¬(mode ≠ GL_QUADS ∧ mode ≠ GL_QUAD_STRIP) := by tauto
  have h1 : ¬(count < 0) := by omega
  have h2 : ¬(count < 4) := by omega
  rw [Quads.glDrawArrays, if_neg h0, if_neg h1, if_neg h2, if_neg hnotall, hres]
  cases q <;> cases l <;> cases p <;> rfl

theorem resolveDraw_spec (s : QuadsState)
    (hnotall : ¬(s.cullingFaces = true ∧ s.cullFace = GL_FRONT_AND_BACK))
    (hcull : s.cullFace = GL_FRONT ∨ s.cullFace = GL_BACK ∨ s.cullFace = GL_FRONT_AND_BACK) :
    resolveDraw s = some (decide (GL_FILL ∈ specActiveStyles s),
                          decide (GL_LINE ∈ specActiveStyles s),
                          decide (GL_POINT ∈ specActiveStyles s)) := by
  by_cases hcf : s.cullingFaces = false
  · rw [resolveDraw, if_pos hcf, specActiveStyles, if_pos hcf]
    simp only [Option.some.injEq, Prod.mk.injEq, decide_eq_decide, List.mem_cons,
      List.mem_singleton, List.not_mem_nil, or_false]
    refine ⟨?_, ?_, ?_⟩ <;> constructor <;> (intro h; rcases h with h | h) <;> omega
  · have hcf' : s.cullingFaces = true := by
      revert hcf; cases s.cullingFaces <;> simp
    rcases hcull with hface | hface | hface
    · have hnb : ¬ s.cullFace = GL_BACK := by rw [hface]; decide
      rw [resolveDraw, if_neg (by rw [hcf']; simp), if_neg hnb, if_pos hface,
        specActiveStyles, if_neg (by rw [hcf']; simp), if_neg hnb]
      simp only [Option.some.injEq, Prod.mk.injEq, decide_eq_decide,
        List.mem_singleton, List.not_mem_nil, or_false]
      refine ⟨?_, ?_, ?_⟩ <;> constructor <;> intro h <;> omega
    · rw [resolveDraw, if_neg (by rw [hcf']; simp), if_pos hface,
        specActiveStyles, if_neg (by rw [hcf']; simp), if_pos hface]
      simp only [Option.some.injEq, Prod.mk.injEq, decide_eq_decide,
        List.mem_singleton, List.not_mem_nil, or_false]
      refine ⟨?_, ?_, ?_⟩ <;> constructor <;> intro h <;> omega
    · exact absurd ⟨hcf', hface⟩ hnotall

theorem quadsFillCalls_single_quads (s : QuadsState) (first count : Int)
    (hc : (4 : Int) ≤ count) (hcs : count ≤ 4099) :
    submissions (quadsFillCalls s GL_QUADS first count) =
      [(GL_TRIANGLES,
        if s.shadeMode ≠ GL_FLAT then quadsSmoothIndices first (count.toNat / 4)
        else if s.gl_quads_follow_provoking_vertex_convention = false ∨
            s.provokeMode = GL_LAST_VERTEX_CONVENTION then
          quadsFlatLastIndices first (count.toNat / 4)
        else quadsFlatFirstIndices first (count.toNat / 4))] := by
  have hc4 : 4 ≤ count.toNat ∧ count.toNat ≤ 4099 := by omega
  simp only [quadsFillCalls, submissions_append, submissions_polygonMode_opt,
    List.append_nil, List.nil_append, maskedCount_quads]
  rw [if_neg (by decide), if_true]
  have hn : min (count.toNat / 4 * 4 / 4) EMU_QUADS_BUFFER_SIZE = count.toNat / 4 := by
    simp only [EMU_QUADS_BUFFER_SIZE]; omega
  rw [hn]
  have hlen : (if s.shadeMode ≠ GL_FLAT then quadsSmoothIndices first (count.toNat / 4)
      else if s.gl_quads_follow_provoking_vertex_convention = false ∨
          s.provokeMode = GL_LAST_VERTEX_CONVENTION then
        quadsFlatLastIndices first (count.toNat / 4)
      else quadsFlatFirstIndices first (count.toNat / 4)).length = count.toNat / 4 * 6 := by
    split
    · exact quadsSmoothIndices_length first _
    · split
      · exact quadsFlatLastIndices_length first _
      · exact quadsFlatFirstIndices_length first _
  rw [quadsTriLoop_single _ _ _ _ hlen (by omega) (by omega) (by omega)]
  simp only [submissions_cons_bindBuffer, submissions_append, submissions_cons_bufferData,
    submissions_cons_drawElements, submissions_nil, List.append_nil, List.nil_append]

theorem quadsFillCalls_single_strip (s : QuadsState) (first count : Int)
    (hc : (4 : Int) ≤ count) (hcs : count ≤ 2049) :
    submissions (quadsFillCalls s GL_QUAD_STRIP first count) =
      [(GL_TRIANGLES,
        if s.shadeMode ≠ GL_FLAT then stripSmoothIndices first (count.toNat / 2 - 1)
        else if s.gl_quads_follow_provoking_vertex_convention = false ∨
            s.provokeMode = GL_LAST_VERTEX_CONVENTION then
          stripFlatLastIndices first (count.toNat / 2 - 1)
        else stripFlatFirstIndices first (count.toNat / 2 - 1))] := by
  have hc4 : 4 ≤ count.toNat ∧ count.toNat ≤ 2049 := by omega
  simp only [quadsFillCalls, submissions_append, submissions_polygonMode_opt,
    List.append_nil, List.nil_append, maskedCount_strip, eq_self_iff_true, if_true]
  have hn : min (count.toNat / 2 * 2 / 2 - 1) EMU_QUADS_BUFFER_SIZE = count.toNat / 2 - 1 := by
    simp only [EMU_QUADS_BUFFER_SIZE]; omega
  rw [hn]
  have hlen : (if s.shadeMode ≠ GL_FLAT then stripSmoothIndices first (count.toNat / 2 - 1)
      else if s.gl_quads_follow_provoking_vertex_convention = false ∨
          s.provokeMode = GL_LAST_VERTEX_CONVENTION then
        stripFlatLastIndices first (count.toNat / 2 - 1)
      else stripFlatFirstIndices first (count.toNat / 2 - 1)).length =
        (count.toNat / 2 - 1) * 6 := by
    split
    · exact stripSmoothIndices_length first _
    · split
      · exact stripFlatLastIndices_length first _
      · exact stripFlatFirstIndices_length first _
  rw [stripTriLoop_single _ _ _ _ hlen (by omega) (by omega) (by omega)]
  simp only [submissions_cons_bindBuffer, submissions_append, submissions_cons_bufferData,
    submissions_cons_drawElements, submissions_nil, List.append_nil, List.nil_append]

theorem linesCalls_single_strip (s : QuadsState) (first count : Int)
    (hc : (4 : Int) ≤ count) (hcs : count ≤ 2049) :
    submissions (linesCalls s GL_QUAD_STRIP first count) =
      [(GL_LINES,
        if s.shadeMode = GL_FLAT ∧ s.gl_quads_follow_provoking_vertex_convention = true ∧
            s.provokeMode = GL_FIRST_VERTEX_CONVENTION then
          stripLineFlatFirstIndices first (count.toNat / 2 - 1)
        else stripLineIndices first (count.toNat / 2 - 1))] := by
  have hc4 : 4 ≤ count.toNat ∧ count.toNat ≤ 2049 := by omega
  simp only [linesCalls, submissions_append, submissions_polygonMode_opt,
    List.append_nil, List.nil_append, maskedCount_strip, eq_self_iff_true, if_true]
  have hn : min (count.toNat / 2 * 2 / 2 - 1) EMU_QUADS_BUFFER_SIZE = count.toNat / 2 - 1 := by
    simp only [EMU_QUADS_BUFFER_SIZE]; omega
  rw [hn]
  have hlen : (if s.shadeMode = GL_FLAT ∧ s.gl_quads_follow_provoking_vertex_convention = true ∧
          s.provokeMode = GL_FIRST_VERTEX_CONVENTION then
        stripLineFlatFirstIndices first (count.toNat / 2 - 1)
      else stripLineIndices first (count.toNat / 2 - 1)).length =
        (count.toNat / 2 - 1) * 6 + 2 := by
    split
    · exact stripLineFlatFirstIndices_length first _
    · exact stripLineIndices_length first _
  rw [stripLineLoop_single _ _ _ _ hlen (by omega) (by omega) (by omega)]
  simp only [submissions_cons_drawElements, submissions_nil]

/-- Claim C9: for QUADS or QUAD_STRIP, a negative count makes glDrawArrays
return false with no downstream calls (hence zero submissions). -/
theorem quads_c9_negative_count (s : QuadsState) (mode : Nat) (first count : Int)
    (hmode : mode = GL_QUADS ∨ mode = GL_QUAD_STRIP) (hc : count < 0) :
    Quads.glDrawArrays s mode first count = (s, false, []) := by
  have h0 : ¬(mode ≠ GL_QUADS ∧ mode ≠ GL_QUAD_STRIP) := by tauto
  rw [Quads.glDrawArrays, if_neg h0, if_pos hc]

/-- Witness for C9 at mode QUADS, count −1. -/
theorem quads_c9_witness :
    Quads.glDrawArrays sDefault GL_QUADS 0 (-1) = (sDefault, false, []) :=
  quads_c9_negative_count sDefault GL_QUADS 0 (-1) (Or.inl rfl) (by decide)

/-- Claim C10: glDrawArrays never mutates the emulation state — the state
component of the result equals the input state for every mode, first, count
and starting state (hence every field is unchanged). -/
theorem quads_c10_draw_preserves_state (s : QuadsState) (mode : Nat) (first count : Int) :
    (Quads.glDrawArrays s mode first count).1 = s := by
  rw [Quads.glDrawArrays]
  (repeat' split) <;> rfl

/-- Claim C4 (code bug): `Quads::Cleanup` is a no-op — it emits no
downstream GL calls at all, in particular no deletion of the scratch
`quadIndexBuffer` allocated by `Init`. -/
theorem quads_c4_cleanup_releases_nothing (s : QuadsState) :
    Quads.Cleanup s = (s, []) := rfl

/-- Claim C6: after any draw call, the externally visible element-array
binding (the fold of the emitted bind calls over the shadowed binding)
still equals the shadowed binding `elementArrayBuffer`; when the scratch
buffer name differs from it, the visible binding is never the scratch
buffer. -/
theorem quads_c6_binding_invariant (s : QuadsState) (mode : Nat) (first count : Int) :
    bindAfter ((Quads.glDrawArrays s mode first count).2.2) s.elementArrayBuffer =
        s.elementArrayBuffer ∧
      (s.quadIndexBuffer ≠ s.elementArrayBuffer →
        bindAfter ((Quads.glDrawArrays s mode first count).2.2) s.elementArrayBuffer ≠
          s.quadIndexBuffer) := by
  have key : bindAfter ((Quads.glDrawArrays s mode first count).2.2) s.elementArrayBuffer =
      s.elementArrayBuffer := by
    rw [Quads.glDrawArrays]
    split
    · rfl
    split
    · rfl
    split
    · rfl
    split
    · rfl
    split
    · rfl
    split
    · exact quadsFillCalls_bindAfter s mode first count
    split
    · exact linesCalls_bindAfter s mode first count s.elementArrayBuffer
    split
    · exact pointsCalls_bindAfter s mode first count s.elementArrayBuffer
    · rfl
  exact ⟨key, fun hne => by rw [key]; exact fun h => hne h.symm⟩

/-- Witness for C6 at the post-Init state (scratch buffer 1, shadow 0),
mode QUADS, first 0, count 8. -/
theorem quads_c6_witness :
    bindAfter ((Quads.glDrawArrays sDefault GL_QUADS 0 8).2.2) sDefault.elementArrayBuffer =
        sDefault.elementArrayBuffer ∧
      bindAfter ((Quads.glDrawArrays sDefault GL_QUADS 0 8).2.2) sDefault.elementArrayBuffer ≠
        sDefault.quadIndexBuffer :=
  ⟨(quads_c6_binding_invariant sDefault GL_QUADS 0 8).1,
   (quads_c6_binding_invariant sDefault GL_QUADS 0 8).2 (by decide)⟩

/-- Counterexample to claim C3: `glPolygonMode` does not validate its style
argument — passing the unrecognized style 4660 (0x1234) with face FRONT
overwrites `frontFaceMode`, so state is not left unchanged. -/
theorem quads_c3_counterexample :
    (Quads.glPolygonMode sDefault GL_FRONT 4660).frontFaceMode = 4660 ∧
      4660 ≠ GL_FILL ∧ 4660 ≠ GL_LINE ∧ 4660 ≠ GL_POINT ∧
      Quads.glPolygonMode sDefault GL_FRONT 4660 ≠ sDefault := by
  decide

/-- Claim C3 as amended: the front-face, shade-model, provoking-vertex and
cull-face setters leave the state unchanged on an unrecognized enum, and
`glPolygonMode` leaves the state unchanged on an unrecognized face — but a
recognized face stores the style argument unvalidated. -/
theorem quads_c3_amended (s : QuadsState) (f m : Nat)
    (hm : m ≠ GL_CW ∧ m ≠ GL_CCW ∧ m ≠ GL_SMOOTH ∧ m ≠ GL_FLAT ∧
      m ≠ GL_FIRST_VERTEX_CONVENTION ∧ m ≠ GL_LAST_VERTEX_CONVENTION ∧
      m ≠ GL_FRONT ∧ m ≠ GL_BACK ∧ m ≠ GL_FRONT_AND_BACK) :
    Quads.glFrontFace s m = s ∧ Quads.glShadeModel s m = s ∧
      Quads.glProvokingVertex s m = s ∧ Quads.glCullFace s m = s ∧
      Quads.glPolygonMode s m f = s ∧
      Quads.glPolygonMode s GL_FRONT m = { s with frontFaceMode := m } := by
  obtain ⟨h1, h2, h3, h4, h5, h6, h7, h8, h9⟩ := hm
  refine ⟨?_, ?_, ?_, ?_, ?_, ?_⟩
  · rw [Quads.glFrontFace, if_neg (by tauto)]
  · rw [Quads.glShadeModel, if_neg (by tauto)]
  · rw [Quads.glProvokingVertex, if_neg (by tauto)]
  · rw [Quads.glCullFace, if_neg (by tauto)]
  · rw [Quads.glPolygonMode, if_neg h7, if_neg h8, if_neg h9]
  · rw [Quads.glPolygonMode, if_pos rfl]

/-- Witness for C3 (amended) at the default state with the invalid enum
4660. -/
theorem quads_c3_witness :
    Quads.glFrontFace sDefault 4660 = sDefault ∧
      Quads.glShadeModel sDefault 4660 = sDefault ∧
      Quads.glProvokingVertex sDefault 4660 = sDefault ∧
      Quads.glCullFace sDefault 4660 = sDefault ∧
      Quads.glPolygonMode sDefault 4660 0 = sDefault ∧
      Quads.glPolygonMode sDefault GL_FRONT 4660 =
        { sDefault with frontFaceMode := 4660 } :=
  quads_c3_amended sDefault 0 4660 (by decide)

/-- Claim C7: the resolver applies the priority FILL > LINE > POINT over
the active face-style set (both faces when not culling, the front face when
culling BACK, the back face when culling FRONT): FILL in the set forces a
non-empty all-triangles draw, else LINE forces all-lines, else POINT gives
exactly one direct point submission. -/
theorem quads_c7_mode_priority (s : QuadsState) (mode : Nat) (first count : Int)
    (hmode : mode = GL_QUADS ∨ mode = GL_QUAD_STRIP) (hc : (4 : Int) ≤ count)
    (hcull : s.cullFace = GL_FRONT ∨ s.cullFace = GL_BACK ∨ s.cullFace = GL_FRONT_AND_BACK)
    (hnotall : ¬(s.cullingFaces = true ∧ s.cullFace = GL_FRONT_AND_BACK)) :
    (GL_FILL ∈ specActiveStyles s →
      submissions ((Quads.glDrawArrays s mode first count).2.2) ≠ [] ∧
        ∀ x ∈ submissions ((Quads.glDrawArrays s mode first count).2.2),
          x.1 = GL_TRIANGLES) ∧
      (GL_FILL ∉ specActiveStyles s → GL_LINE ∈ specActiveStyles s →
        submissions ((Quads.glDrawArrays s mode first count).2.2) ≠ [] ∧
          ∀ x ∈ submissions ((Quads.glDrawArrays s mode first count).2.2),
            x.1 = GL_LINES) ∧
      (GL_FILL ∉ specActiveStyles s → GL_LINE ∉ specActiveStyles s →
        GL_POINT ∈ specActiveStyles s →
        submissions ((Quads.glDrawArrays s mode first count).2.2) =
          [(GL_POINTS, [])]) := by
  have hres := resolveDraw_spec s hnotall hcull
  rw [glDrawArrays_resolved s mode first count _ _ _ hmode hc hnotall hres]
  refine ⟨?_, ?_, ?_⟩
  · intro hf
    rw [if_pos (decide_eq_true hf)]
    exact quadsFillCalls_submissions s mode first count hmode hc
  · intro hnf hl
    rw [if_neg (by simpa using hnf), if_pos (decide_eq_true hl)]
    exact linesCalls_submissions s mode first count hmode hc
  · intro hnf hnl hp
    rw [if_neg (by simpa using hnf), if_neg (by simpa using hnl),
      if_pos (decide_eq_true hp)]
    exact pointsCalls_submissions s mode first count

/-- Witness for C7: frontFaceMode = LINE, backFaceMode = FILL, culling
disabled — FILL wins and the draw is a non-empty all-triangles submission
list, not lines. -/
theorem quads_c7_witness :
    GL_FILL ∈ specActiveStyles sMixedLineFill ∧
      (submissions ((Quads.glDrawArrays sMixedLineFill GL_QUADS 0 8).2.2) ≠ [] ∧
        ∀ x ∈ submissions ((Quads.glDrawArrays sMixedLineFill GL_QUADS 0 8).2.2),
          x.1 = GL_TRIANGLES) :=
  ⟨by decide,
   (quads_c7_mode_priority sMixedLineFill GL_QUADS 0 8 (Or.inl rfl) (by decide)
      (by decide) (by decide)).1 (by decide)⟩

set_option maxRecDepth 1000000 in
/-- Claim C8: with chunk capacity K = 1024 quads, a smooth QUADS draw of
count = 4·(K+1) vertices issues exactly two indexed-triangle submissions,
and the second submission's indices are the first chunk's leading quad
pattern shifted up by 4·K. -/
theorem quads_c8_chunk_boundary :
    (submissions ((Quads.glDrawArrays sDefault GL_QUADS 0 (4 * (1024 + 1))).2.2)).length
        = 2 ∧
      ((submissions ((Quads.glDrawArrays sDefault GL_QUADS 0 (4 * (1024 + 1))).2.2))[0]?.map
          Prod.fst) = some GL_TRIANGLES ∧
      (submissions ((Quads.glDrawArrays sDefault GL_QUADS 0 (4 * (1024 + 1))).2.2))[1]? =
        some (GL_TRIANGLES,
          (((submissions
              ((Quads.glDrawArrays sDefault GL_QUADS 0 (4 * (1024 + 1))).2.2))[0]?.getD
                (0, [])).2.take 6).map (fun x => (x + 4 * 1024) % M32)) := by
  decide

/-- Counterexample to claim C1: under smooth shading the code triangulates
each quad as (v0,v1,v2, v3,v0,v2), not (v0,v1,v2, v0,v2,v3); at
draw(QUADS, first 0, count 8) the single submission's index sequence is
[0,1,2,3,0,2,4,5,6,7,4,6], not [0,1,2,0,2,3,4,5,6,4,6,7]. -/
theorem quads_c1_counterexample :
    submissions ((Quads.glDrawArrays sDefault GL_QUADS 0 8).2.2) ≠
      [(GL_TRIANGLES, [0, 1, 2, 0, 2, 3, 4, 5, 6, 4, 6, 7])] := by
  decide

/-- Claim C1 as amended: a smooth-shaded QUADS draw that resolves to
triangles (single-chunk counts) issues exactly one indexed-triangle
submission whose quad `ii` contributes the six indices
(v0, v1, v2, v3, v0, v2). -/
theorem quads_c1_amended (s : QuadsState) (first count : Int) (l p : Bool)
    (hres : resolveDraw s = some (true, l, p))
    (hnotall : ¬(s.cullingFaces = true ∧ s.cullFace = GL_FRONT_AND_BACK))
    (hsm : s.shadeMode ≠ GL_FLAT)
    (hc : (4 : Int) ≤ count) (hcs : count ≤ 4099) :
    submissions ((Quads.glDrawArrays s GL_QUADS first count).2.2) =
      [(GL_TRIANGLES, (List.range (count.toNat / 4)).flatMap (fun ii =>
        [(u32 first + ii * 4 + 0) % M32, (u32 first + ii * 4 + 1) % M32,
         (u32 first + ii * 4 + 2) % M32, (u32 first + ii * 4 + 3) % M32,
         (u32 first + ii * 4 + 0) % M32, (u32 first + ii * 4 + 2) % M32]))] := by
  rw [glDrawArrays_resolved s GL_QUADS first count true l p (Or.inl rfl) hc hnotall hres]
  show submissions (quadsFillCalls s GL_QUADS first count) = _
  rw [quadsFillCalls_single_quads s first count hc hcs, if_pos hsm]
  rfl

/-- Witness for C1 (amended) at the default smooth state, first 0,
count 8. -/
theorem quads_c1_witness :
    resolveDraw sDefault = some (true, false, false) ∧
      submissions ((Quads.glDrawArrays sDefault GL_QUADS 0 8).2.2) =
        [(GL_TRIANGLES, [0, 1, 2, 3, 0, 2, 4, 5, 6, 7, 4, 6])] := by
  refine ⟨by decide, ?_⟩
  rw [quads_c1_amended sDefault 0 8 false false (by decide) (by decide) (by decide)
    (by decide) (by decide)]
  decide

/-- Counterexample to claim C2: under flat shading with the LAST_VERTEX
convention the code triangulates a strip step as (v0,v1,v3, v2,v0,v3)
(both triangles ending at v3, the step's provoking vertex), not
(v0,v1,v2, v2,v1,v3): at draw(QUAD_STRIP, first 0, count 4) the submitted
sequence is [0,1,3,2,0,3]. -/
theorem quads_c2_counterexample :
    submissions ((Quads.glDrawArrays sFlatLast GL_QUAD_STRIP 0 4).2.2) ≠
      [(GL_TRIANGLES, [0, 1, 2, 2, 1, 3])] := by
  decide

/-- Claim C2 as amended: a flat-shaded QUAD_STRIP draw under the
LAST_VERTEX convention (or with the convention capability disabled) that
resolves to triangles (single-chunk counts) issues one indexed-triangle
submission whose strip step `ii` contributes the six indices
(v0, v1, v3, v2, v0, v3). -/
theorem quads_c2_amended (s : QuadsState) (first count : Int) (l p : Bool)
    (hres : resolveDraw s = some (true, l, p))
    (hnotall : ¬(s.cullingFaces = true ∧ s.cullFace = GL_FRONT_AND_BACK))
    (hsm : s.shadeMode = GL_FLAT)
    (hconv : s.gl_quads_follow_provoking_vertex_convention = false ∨
      s.provokeMode = GL_LAST_VERTEX_CONVENTION)
    (hc : (4 : Int) ≤ count) (hcs : count ≤ 2049) :
    submissions ((Quads.glDrawArrays s GL_QUAD_STRIP first count).2.2) =
      [(GL_TRIANGLES, (List.range (count.toNat / 2 - 1)).flatMap (fun ii =>
        [(u32 first + ii * 2 + 0) % M32, (u32 first + ii * 2 + 1) % M32,
         (u32 first + ii * 2 + 3) % M32, (u32 first + ii * 2 + 2) % M32,
         (u32 first + ii * 2 + 0) % M32, (u32 first + ii * 2 + 3) % M32]))] := by
  rw [glDrawArrays_resolved s GL_QUAD_STRIP first count true l p (Or.inr rfl) hc
    hnotall hres]
  show submissions (quadsFillCalls s GL_QUAD_STRIP first count) = _
  rw [quadsFillCalls_single_strip s first count hc hcs, if_neg (by simp [hsm]),
    if_pos hconv]
  rfl

/-- Witness for C2 (amended) at the flat-shaded default state, first 0,
count 4. -/
theorem quads_c2_witness :
    resolveDraw sFlatLast = some (true, false, false) ∧
      sFlatLast.shadeMode = GL_FLAT ∧
      submissions ((Quads.glDrawArrays sFlatLast GL_QUAD_STRIP 0 4).2.2) =
        [(GL_TRIANGLES, [0, 1, 3, 2, 0, 3])] := by
  refine ⟨by decide, by decide, ?_⟩
  rw [quads_c2_amended sFlatLast 0 4 false false (by decide) (by decide) (by decide)
    (by decide) (by decide) (by decide)]
  decide

/-- Counterexample to claim C5: in the non-flat-first branch the code
emits the two seed indices plus six indices per strip step and nothing
more — at draw(QUAD_STRIP, first 0, count 4) with both faces LINE the
submission is [0,1,0,2,2,3,1,3], 8 indices, whereas the claimed trailing
closing pair would make the sequence 2 + 6·1 + 2 = 10 indices long. -/
theorem quads_c5_counterexample :
    submissions ((Quads.glDrawArrays sLineBoth GL_QUAD_STRIP 0 4).2.2) =
        [(GL_LINES, [0, 1, 0, 2, 2, 3, 1, 3])] ∧
      ([0, 1, 0, 2, 2, 3, 1, 3] : List Nat).length ≠ 2 + 6 * 1 + 2 := by
  decide

/-- Claim C5 as amended: a QUAD_STRIP draw resolving to line outlines in
the non-(flat + FIRST_VERTEX-convention) branch (single-chunk counts)
issues one indexed-line submission consisting of the seed pair (v0,v1)
followed, per strip step, by the edges (v0,v2, v2,v3, v1,v3); no
additional closing pair is appended — the trailing edge of the strip is
the final step's (v2,v3) segment. -/
theorem quads_c5_amended (s : QuadsState) (first count : Int) (p : Bool)
    (hres : resolveDraw s = some (false, true, p))
    (hnotall : ¬(s.cullingFaces = true ∧ s.cullFace = GL_FRONT_AND_BACK))
    (hnff : ¬(s.shadeMode = GL_FLAT ∧ s.gl_quads_follow_provoking_vertex_convention = true ∧
      s.provokeMode = GL_FIRST_VERTEX_CONVENTION))
    (hc : (4 : Int) ≤ count) (hcs : count ≤ 2049) :
    submissions ((Quads.glDrawArrays s GL_QUAD_STRIP first count).2.2) =
      [(GL_LINES, (u32 first + 0) % M32 :: (u32 first + 1) % M32 ::
        (List.range (count.toNat / 2 - 1)).flatMap (fun ii =>
          [(u32 first + ii * 2 + 0) % M32, (u32 first + ii * 2 + 2) % M32,
           (u32 first + ii * 2 + 2) % M32, (u32 first + ii * 2 + 3) % M32,
           (u32 first + ii * 2 + 1) % M32, (u32 first + ii * 2 + 3) % M32]))] := by
  rw [glDrawArrays_resolved s GL_QUAD_STRIP first count false true p (Or.inr rfl) hc
    hnotall hres]
  show submissions (linesCalls s GL_QUAD_STRIP first count) = _
  rw [linesCalls_single_strip s first count hc hcs, if_neg hnff]
  rfl

/-- Witness for C5 (amended) at the both-faces-LINE state, first 0,
count 4: one step, 8 indices, no closing pair. -/
theorem quads_c5_witness :
    resolveDraw sLineBoth = some (false, true, false) ∧
      submissions ((Quads.glDrawArrays sLineBoth GL_QUAD_STRIP 0 4).2.2) =
        [(GL_LINES, [0, 1, 0, 2, 2, 3, 1, 3])] := by
  refine ⟨by decide, ?_⟩
  rw [quads_c5_amended sLineBoth 0 4 false (by decide) (by decide) (by decide)
    (by decide) (by decide)]
  decide
